import Mathlib

/-!
Shallow embedding of the eTuitionBd server (src/index.js, with the earlier
revisions src/unnamed/part_000 and src/unnamed/part_001 of the same server).
Collections are lists of documents; MongoDB operations findOne, insertOne,
updateOne, deleteOne, find-with-filter, sort and the aggregation pipelines
used by the routes are modelled directly.  Each HTTP handler becomes a pure
function from the database state and the request data to a response paired
with the new database state.  Authentication (verifyToken) is modelled by
passing the decoded caller email into the handler; the role and self checks
performed by the handlers themselves are embedded faithfully.
-/

namespace ETuitionBd

/-- HTTP-level response: a success body or an error status with a message,
mirroring res.send / res.status(...).send in the handlers. -/
inductive HResp (α : Type) where
  | ok (body : α)
  | badRequest (msg : String)
  | unauthorized (msg : String)
  | forbidden (msg : String)
  | notFound (msg : String)
deriving DecidableEq, Repr

/-- Document of the users collection. The role field may be absent. -/
structure User where
  id : Nat
  email : String
  name : String
  photoURL : String
  role : Option String
deriving DecidableEq, Repr

/-- Document of the tuitions collection. -/
structure Tuition where
  id : Nat
  studentEmail : String
  subject : String
  location : String
  budget : Int
  status : String
  createdAt : Nat
  hiredTutorEmail : Option String
  hiredAt : Option Nat
deriving DecidableEq, Repr

/-- Document of the applications collection. -/
structure Application where
  id : Nat
  tuitionId : Nat
  tutorEmail : String
  tutorName : String
  status : String
  appliedAt : Nat
  paymentId : Option String
  approvedAt : Option Nat
deriving DecidableEq, Repr

/-- Document of the payments collection, as inserted by POST /payments:
the request body plus the tutorEmail, tutorName and date fields the handler
adds before the insert. -/
structure PaymentDoc where
  applicationId : Nat
  transactionId : String
  tuitionId : Option Nat
  email : Option String
  price : Option Int
  tutorEmail : String
  tutorName : String
  date : Nat
deriving DecidableEq, Repr

/-- Body of a POST /payments request.  applicationId and transactionId are
optional because the handler validates their presence; ids are modelled as
Nat (well-formed ObjectId values). -/
structure PaymentReq where
  applicationId : Option Nat
  transactionId : Option String
  tuitionId : Option Nat
  email : Option String
  price : Option Int
deriving DecidableEq, Repr

/-- Body of a POST /applications request, after the tuitionId string has
been converted to an ObjectId. -/
structure ApplicationReq where
  tuitionId : Nat
  tutorEmail : String
  tutorName : String
  appliedAt : Nat
deriving DecidableEq, Repr

/-- The four collections of the eTuitionBd database, plus the counter used
to model ObjectId generation on insert. -/
structure DB where
  users : List User
  tuitions : List Tuition
  applications : List Application
  payments : List PaymentDoc
  nextId : Nat
deriving DecidableEq, Repr

/-- updateOne: apply f to the first document matching p, leave the rest
unchanged (matchedCount is 0 when nothing matches). -/
def updateFirst (p : α → Bool) (f : α → α) : List α → List α
  | [] => []
  | x :: xs => if p x then f x :: xs else x :: updateFirst p f xs

/-- deleteOne: remove the first document matching p. -/
def deleteFirst (p : α → Bool) : List α → List α
  | [] => []
  | x :: xs => if p x then xs else x :: deleteFirst p xs

/-- Insert x into a list that is sorted descending by key, keeping it
sorted; used to model Mongo sort with direction -1. -/
def insertDesc (key : α → Nat) (x : α) : List α → List α
  | [] => [x]
  | y :: ys => if key y < key x then x :: y :: ys else y :: insertDesc key x ys

/-- Sort a list descending by key (models .sort with direction -1). -/
def sortDescBy (key : α → Nat) (l : List α) : List α :=
  l.foldr (insertDesc key) []

/-- Boolean test that the first character list is a prefix of the second. -/
def charsPrefixOfB : List Char → List Char → Bool
  | [], _ => true
  | a :: as, b :: bs => a == b && charsPrefixOfB as bs
  | _, [] => false

/-- Boolean test that needle occurs as a contiguous sublist of hay. -/
def charsSubOf (needle : List Char) : List Char → Bool
  | [] => needle.isEmpty
  | b :: bs => charsPrefixOfB needle (b :: bs) || charsSubOf needle bs

/-- Case-insensitive substring test, modelling the Mongo regex filter with
option i used by the search query of GET /tuitions in part_000. -/
def strContainsCI (hay needle : String) : Bool :=
  charsSubOf (needle.toList.map Char.toLower) (hay.toList.map Char.toLower)

/-- findOne on users by email, as used by verifyAdmin and GET /users. -/
def lookupUser (db : DB) (email : String) : Option User :=
  db.users.find? (fun u => u.email == email)

/-- The condition under which the verifyAdmin middleware lets a request
through: the caller has a stored user record whose role field is admin. -/
def verifyAdminCheck (db : DB) (email : String) : Bool :=
  match lookupUser db email with
  | some u => u.role == some "admin"
  | none => false

/-- Body of an insertOne-style response: insertedId is null in the
duplicate-application soft-success branch. -/
structure InsertRes where
  insertedId : Option Nat
  message : Option String
deriving DecidableEq, Repr

/-- Body of an updateOne response (matchedCount of the filter). -/
structure UpdateRes where
  matchedCount : Nat
deriving DecidableEq, Repr

/-- Body of a deleteOne response. -/
structure DeleteRes where
  deletedCount : Nat
deriving DecidableEq, Repr

/-- Body returned by GET /admin-stats. -/
structure AdminStatsRes where
  users : Nat
  tuitions : Nat
  applications : Nat
  revenue : Int
deriving DecidableEq, Repr

/-- Body returned by GET /users/:email — either the stored user document or
the fallback document holding only the default role. -/
inductive UserBody where
  | full (u : User)
  | roleOnly (role : String)
deriving DecidableEq, Repr

/-- Body of a successful admin-route response. -/
inductive AdminBody where
  | userList (us : List User)
  | updated (r : UpdateRes)
  | deleted (r : DeleteRes)
  | tuitionList (ts : List Tuition)
  | stats (s : AdminStatsRes)
deriving DecidableEq, Repr

/-- Body of a successful self-only-route response. -/
inductive SelfBody where
  | updated (r : UpdateRes)
  | tuitionList (ts : List Tuition)
  | receivedList (rs : List (Application × Tuition))
  | tutorAppList (rs : List (Application × Option Tuition))
  | paymentList (ps : List PaymentDoc)
deriving DecidableEq, Repr

/-- Body of a successful POST /payments response. -/
inductive PayBody where
  | success (message : String)
deriving DecidableEq, Repr

/-- Body of a successful POST /create-payment-intent response: the handler
called the payment processor with the given minor-unit amount. -/
inductive IntentBody where
  | created (amount : Int)
deriving DecidableEq, Repr

/-- GET /tuitions as implemented in src/index.js lines 114-120: find the
documents with status approved, sort by createdAt descending.  The handler
reads nothing from the request, so the search query parameter is ignored. -/
def getTuitions (db : DB) (search : String) : List Tuition :=
  sortDescBy Tuition.createdAt (db.tuitions.filter (fun t => t.status == "approved"))

/-- The match predicate of the GET /tuitions query of the earlier revision
src/unnamed/part_000 lines 127-159: status approved and a case-insensitive
substring match of the search term against subject or location. -/
def tuitionsQueryMatch (search : String) (t : Tuition) : Bool :=
  t.status == "approved" &&
    (strContainsCI t.subject search || strContainsCI t.location search)

/-- GET /tuitions of src/unnamed/part_000 (default sort): the page obtained
by skip (page * limit) and limit, together with countDocuments of the same
query. -/
def getTuitionsSearch (db : DB) (page limit : Nat) (search : String) :
    List Tuition × Nat :=
  let matching := db.tuitions.filter (tuitionsQueryMatch search)
  ((matching.drop (page * limit)).take limit, matching.length)

/-- GET /users/:email (src/index.js lines 86-95): findOne by email; when no
document exists the handler answers with the document holding only the
default role student. -/
def getUserByEmail (db : DB) (email : String) : HResp UserBody × DB :=
  match lookupUser db email with
  | none => (HResp.ok (UserBody.roleOnly "student"), db)
  | some u => (HResp.ok (UserBody.full u), db)

/-- Number of stored applications for a given (tuitionId, tutorEmail) key. -/
def countApplicationsFor (db : DB) (tuitionId : Nat) (tutorEmail : String) : Nat :=
  (db.applications.filter
    (fun a => a.tuitionId == tuitionId && a.tutorEmail == tutorEmail)).length

/-- The application document inserted by POST /applications: the request
body with status forced to pending and the generated id. -/
def newApplicationDoc (id : Nat) (r : ApplicationReq) : Application :=
  { id := id, tuitionId := r.tuitionId, tutorEmail := r.tutorEmail,
    tutorName := r.tutorName, status := "pending", appliedAt := r.appliedAt,
    paymentId := none, approvedAt := none }

/-- POST /applications (src/index.js lines 229-252): force status pending,
findOne on the (tuitionId, tutorEmail) pair, answer with a null insertedId
when a duplicate exists, otherwise insertOne. -/
def postApplications (db : DB) (r : ApplicationReq) : HResp InsertRes × DB :=
  match db.applications.find?
      (fun a => a.tuitionId == r.tuitionId && a.tutorEmail == r.tutorEmail) with
  | some _ => (HResp.ok ⟨none, some "Already applied"⟩, db)
  | none =>
    (HResp.ok ⟨some db.nextId, none⟩,
     { db with
        applications := db.applications ++ [newApplicationDoc db.nextId r]
        nextId := db.nextId + 1 })

/-- PATCH /applications/reject/:id (src/index.js lines 288-294): updateOne
by id setting status rejected.  The handler runs for any verifyToken
authenticated caller; the caller identity is never consulted. -/
def rejectApplication (db : DB) (caller : String) (id : Nat) : HResp UpdateRes × DB :=
  let matched := if (db.applications.find? (fun a => a.id == id)).isSome then 1 else 0
  (HResp.ok ⟨matched⟩,
   { db with applications :=
      (updateFirst (fun a => a.id == id) (fun a => { a with status := "rejected" })
        db.applications) })

/-- POST /create-payment-intent (src/index.js lines 362-389): reject an
absent or non-positive price with status 400, otherwise call the payment
processor with amount price * 100. -/
def createPaymentIntent (price : Option Int) : HResp IntentBody :=
  match price with
  | none => HResp.badRequest "Valid price is required"
  | some v =>
    if v ≤ 0 then HResp.badRequest "Valid price is required"
    else HResp.ok (IntentBody.created (v * 100))

/-- Update applied to the application document in step 4 of POST /payments. -/
def approveApplicationDoc (txId : String) (now : Nat) (a : Application) : Application :=
  { a with status := "approved", paymentId := some txId, approvedAt := some now }

/-- Update applied to the tuition document in step 5 of POST /payments. -/
def fillTuitionDoc (tutorEmail : String) (now : Nat) (t : Tuition) : Tuition :=
  { t with status := "filled", hiredTutorEmail := some tutorEmail, hiredAt := some now }

/-- The payment document built by POST /payments before the insert: the
request body with tutorEmail, tutorName and date added. -/
def buildPaymentDoc (appId : Nat) (txId : String) (p : PaymentReq)
    (application : Application) (now : Nat) : PaymentDoc :=
  { applicationId := appId, transactionId := txId, tuitionId := p.tuitionId,
    email := p.email, price := p.price,
    tutorEmail := application.tutorEmail, tutorName := application.tutorName,
    date := now }

/-- POST /payments (src/index.js lines 392-458): validate that both
applicationId and transactionId are present, findOne the application (404
when absent), copy tutorEmail, tutorName and the current date onto the
payment document, insertOne it, updateOne the application to approved, and,
only when the request body carries a tuitionId, updateOne that tuition to
filled with the hired tutor email and hire timestamp. -/
def postPayments (db : DB) (now : Nat) (p : PaymentReq) : HResp PayBody × DB :=
  match p.applicationId, p.transactionId with
  | some appId, some txId =>
    (match db.applications.find? (fun a => a.id == appId) with
    | none => (HResp.notFound "Application not found", db)
    | some application =>
      let doc := buildPaymentDoc appId txId p application now
      let db1 := { db with payments := db.payments ++ [doc] }
      let db2 := { db1 with applications :=
        (updateFirst (fun a => a.id == appId) (approveApplicationDoc txId now)
          db1.applications) }
      let db3 :=
        match p.tuitionId with
        | some tid => { db2 with tuitions :=
            (updateFirst (fun t => t.id == tid)
              (fillTuitionDoc application.tutorEmail now) db2.tuitions) }
        | none => db2
      (HResp.ok (PayBody.success "Payment successful and tutor hired!"), db3))
  | _, _ => (HResp.badRequest "Missing required payment information", db)

/-- Aggregation of GET /applications/received/:email (src/index.js lines
196-224): lookup of the tuition referenced by each application, unwind,
match on the tuition studentEmail, sort by appliedAt descending. -/
def receivedApplications (db : DB) (email : String) : List (Application × Tuition) :=
  sortDescBy (fun r => r.1.appliedAt)
    (db.applications.filterMap (fun a =>
      match db.tuitions.find? (fun t => t.id == a.tuitionId) with
      | some t => if t.studentEmail == email then some (a, t) else none
      | none => none))

/-- Aggregation of GET /applications/tutor/:email (src/index.js lines
254-279): match on tutorEmail, lookup of the referenced tuition with
preserveNullAndEmptyArrays, sort by appliedAt descending. -/
def tutorApplications (db : DB) (email : String) : List (Application × Option Tuition) :=
  sortDescBy (fun r => r.1.appliedAt)
    ((db.applications.filter (fun a => a.tutorEmail == email)).map
      (fun a => (a, db.tuitions.find? (fun t => t.id == a.tuitionId))))

/-- Query of GET /my-tuitions/:email: find on studentEmail. -/
def myTuitions (db : DB) (email : String) : List Tuition :=
  db.tuitions.filter (fun t => t.studentEmail == email)

/-- Query of GET /payments/my-history/:email: find on the email field,
sorted by date descending. -/
def paymentsMyHistory (db : DB) (email : String) : List PaymentDoc :=
  sortDescBy PaymentDoc.date (db.payments.filter (fun p => p.email == some email))

/-- Query of GET /payments/tutor-history/:email: find on tutorEmail,
sorted by date descending. -/
def paymentsTutorHistory (db : DB) (email : String) : List PaymentDoc :=
  sortDescBy PaymentDoc.date (db.payments.filter (fun p => p.tutorEmail == email))

/-- Sum of the price fields of the stored payments (a document without a
price contributes 0, as the Mongo group stage treats a missing field). -/
def sumPrices (ps : List PaymentDoc) : Int :=
  (ps.map (fun p => p.price.getD 0)).sum

/-- The group aggregation of GET /admin-stats over the payments collection:
an empty collection produces an empty result array, otherwise a single
document carrying the totalRevenue sum. -/
def revenueAgg (ps : List PaymentDoc) : List Int :=
  if ps.isEmpty then []
  else [ps.foldl (fun acc p => acc + p.price.getD 0) 0]

/-- GET /admin-stats (src/index.js lines 346-357): the collection counts
and the revenue, which is the head of the group aggregation result when it
is non-empty and 0 otherwise. -/
def adminStats (db : DB) : AdminStatsRes :=
  { users := db.users.length, tuitions := db.tuitions.length,
    applications := db.applications.length,
    revenue :=
      match revenueAgg db.payments with
      | [] => 0
      | r :: _ => r }

/-- The six admin-only routes of src/index.js, each guarded by verifyToken
and verifyAdmin. -/
inductive AdminRoute where
  | getUsers
  | patchUserRole (id : Nat) (role : String)
  | deleteUser (id : Nat)
  | getTuitionsAdminAll
  | patchTuitionStatus (id : Nat) (status : String)
  | getAdminStats
deriving DecidableEq, Repr

/-- Dispatcher for the admin-only routes: the verifyAdmin middleware check
runs first and answers 403 forbidden access without reaching the handler
when the caller role is not admin. -/
def handleAdminRoute (db : DB) (caller : String) (r : AdminRoute) : HResp AdminBody × DB :=
  if !(verifyAdminCheck db caller) then (HResp.forbidden "forbidden access", db)
  else
    match r with
    | .getUsers => (HResp.ok (AdminBody.userList db.users), db)
    | .patchUserRole id role =>
      let matched := if (db.users.find? (fun u => u.id == id)).isSome then 1 else 0
      (HResp.ok (AdminBody.updated ⟨matched⟩),
       { db with users :=
          (updateFirst (fun u => u.id == id) (fun u => { u with role := some role })
            db.users) })
    | .deleteUser id =>
      let deleted := if (db.users.find? (fun u => u.id == id)).isSome then 1 else 0
      (HResp.ok (AdminBody.deleted ⟨deleted⟩),
       { db with users := (deleteFirst (fun u => u.id == id) db.users) })
    | .getTuitionsAdminAll =>
      (HResp.ok (AdminBody.tuitionList (sortDescBy Tuition.createdAt db.tuitions)), db)
    | .patchTuitionStatus id status =>
      let matched := if (db.tuitions.find? (fun t => t.id == id)).isSome then 1 else 0
      (HResp.ok (AdminBody.updated ⟨matched⟩),
       { db with tuitions :=
          (updateFirst (fun t => t.id == id) (fun t => { t with status := status })
            db.tuitions) })
    | .getAdminStats => (HResp.ok (AdminBody.stats (adminStats db)), db)

/-- The six self-only routes of src/index.js, each guarded by verifyToken
and an equality check of the path email against the decoded caller email. -/
inductive SelfRoute where
  | patchUserUpdate (email n photo : String)
  | getMyTuitions (email : String)
  | getApplicationsReceived (email : String)
  | getApplicationsTutor (email : String)
  | getPaymentsMyHistory (email : String)
  | getPaymentsTutorHistory (email : String)
deriving DecidableEq, Repr

/-- The email appearing in the route path of a self-only route. -/
def pathEmail : SelfRoute → String
  | .patchUserUpdate e _ _ => e
  | .getMyTuitions e => e
  | .getApplicationsReceived e => e
  | .getApplicationsTutor e => e
  | .getPaymentsMyHistory e => e
  | .getPaymentsTutorHistory e => e

/-- The 403 message each self-only handler sends on an identity mismatch. -/
def selfForbiddenMsg : SelfRoute → String
  | .patchUserUpdate _ _ _ => "forbidden"
  | .getMyTuitions _ => "forbidden"
  | .getApplicationsReceived _ => "forbidden"
  | .getApplicationsTutor _ => "forbidden"
  | .getPaymentsMyHistory _ => "forbidden access"
  | .getPaymentsTutorHistory _ => "forbidden access"

/-- Dispatcher for the self-only routes: each handler first compares the
decoded caller email with the path email and answers 403 on mismatch,
before any collection access. -/
def handleSelfRoute (db : DB) (caller : String) (r : SelfRoute) : HResp SelfBody × DB :=
  if caller != pathEmail r then (HResp.forbidden (selfForbiddenMsg r), db)
  else
    match r with
    | .patchUserUpdate email n photo =>
      let matched := if (db.users.find? (fun u => u.email == email)).isSome then 1 else 0
      (HResp.ok (SelfBody.updated ⟨matched⟩),
       { db with users :=
          (updateFirst (fun u => u.email == email)
            (fun u => { u with name := n, photoURL := photo }) db.users) })
    | .getMyTuitions email =>
      (HResp.ok (SelfBody.tuitionList (myTuitions db email)), db)
    | .getApplicationsReceived email =>
      (HResp.ok (SelfBody.receivedList (receivedApplications db email)), db)
    | .getApplicationsTutor email =>
      (HResp.ok (SelfBody.tutorAppList (tutorApplications db email)), db)
    | .getPaymentsMyHistory email =>
      (HResp.ok (SelfBody.paymentList (paymentsMyHistory db email)), db)
    | .getPaymentsTutorHistory email =>
      (HResp.ok (SelfBody.paymentList (paymentsTutorHistory db email)), db)

/-! Helper lemmas about the list operations modelling the Mongo calls. -/

/-- find? after updateFirst: when the first match of p is a and f keeps a
matching p, the first match after the update is f a. -/
theorem find?_updateFirst_eq {α : Type} {p : α → Bool} {f : α → α} {l : List α} {a : α}
    (h : l.find? p = some a) (hf : p (f a) = true) :
    (updateFirst p f l).find? p = some (f a) := by
  induction l with
  | nil => simp [List.find?] at h
  | cons x xs ih =>
    by_cases hx : p x = true
    · simp [List.find?, hx] at h
      subst h
      simp [updateFirst, hx, List.find?, hf]
    · simp [List.find?, hx] at h
      simp [updateFirst, hx, List.find?, ih h]

/-- find? over an append whose left part has no match. -/
theorem find?_append_none {α : Type} {p : α → Bool} {l₁ : List α}
    (h : l₁.find? p = none) (l₂ : List α) :
    (l₁ ++ l₂).find? p = l₂.find? p := by
  induction l₁ with
  | nil => simp
  | cons x xs ih =>
    by_cases hx : p x = true
    · rw [List.find?_cons_of_pos _ hx] at h
      cases h
    · rw [List.find?_cons_of_neg _ hx] at h
      rw [List.cons_append, List.find?_cons_of_neg _ hx]
      exact ih h

/-- Membership is preserved by insertDesc. -/
theorem mem_insertDesc {α : Type} {key : α → Nat} {x a : α} (l : List α) :
    a ∈ insertDesc key x l ↔ a = x ∨ a ∈ l := by
  induction l with
  | nil => simp [insertDesc]
  | cons y ys ih =>
    by_cases h : key y < key x
    · simp [insertDesc, h]
    · simp [insertDesc, h, ih]
      tauto

/-- Membership is preserved by sortDescBy: the sort of the Mongo model is a
reordering. -/
theorem mem_sortDescBy {α : Type} {key : α → Nat} (l : List α) (a : α) :
    a ∈ sortDescBy key l ↔ a ∈ l := by
  induction l with
  | nil => simp [sortDescBy]
  | cons x xs ih =>
    have hstep : sortDescBy key (x :: xs) = insertDesc key x (sortDescBy key xs) := rfl
    rw [hstep, mem_insertDesc, ih]
    simp

/-- The group-stage fold equals the price sum shifted by the accumulator. -/
theorem foldl_add_price (l : List PaymentDoc) (acc : Int) :
    l.foldl (fun a p => a + p.price.getD 0) acc = acc + sumPrices l := by
  induction l generalizing acc with
  | nil => simp [sumPrices]
  | cons x xs ih =>
    rw [List.foldl_cons, ih]
    simp [sumPrices]
    omega

/-! Concrete database states used by witnesses and counterexamples. -/

/-- Empty database. -/
def dbEmpty : DB := ⟨[], [], [], [], 0⟩

/-- An approved tuition posting by alice, with no occurrence of the search
term math in its subject or location. -/
def tuitionA : Tuition := ⟨1, "alice", "Physics", "Dhaka", 100, "approved", 10, none, none⟩

/-- A pending application by bob on tuition 1. -/
def applicationB : Application := ⟨2, 1, "bob", "Bob", "pending", 11, none, none⟩

/-- Database with the tuition of alice and the application of bob. -/
def dbEx : DB := ⟨[], [tuitionA], [applicationB], [], 5⟩

/-- Payment-completion request referencing application 2, with a
transaction identifier but no tuitionId field in the body. -/
def payReqNoTuition : PaymentReq := ⟨some 2, some "tx", none, some "alice", some 20⟩

/-- Well-formed payment-completion request referencing application 2 and
tuition 1. -/
def payReqFull : PaymentReq := ⟨some 2, some "tx", some 1, some "alice", some 20⟩

/-- Payment-completion request whose applicationId matches no stored
application and which lacks a transactionId. -/
def payReqNoTx : PaymentReq := ⟨some 9, none, none, none, none⟩

/-! Claim theorems. -/

/-- C3: every admin-only route (GET /users, PATCH /users/role/:id,
DELETE /users/:id, GET /tuitions/admin/all, PATCH /tuitions/status/:id,
GET /admin-stats) called by an authenticated caller whose stored user
record does not carry role admin (or who has no user record) answers 403
forbidden access and leaves the database unchanged. -/
theorem admin_routes_forbidden_for_non_admin (db : DB) (caller : String)
    (r : AdminRoute) (h : verifyAdminCheck db caller = false) :
    handleAdminRoute db caller r = (HResp.forbidden "forbidden access", db) := by
  simp [handleAdminRoute, h]

/-- Witness for C3: on the empty database the caller eve has no user
record, so GET /users answers forbidden. -/
theorem admin_routes_forbidden_witness :
    verifyAdminCheck dbEmpty "eve" = false ∧
    handleAdminRoute dbEmpty "eve" AdminRoute.getUsers =
      (HResp.forbidden "forbidden access", dbEmpty) :=
  ⟨rfl, admin_routes_forbidden_for_non_admin dbEmpty "eve" AdminRoute.getUsers rfl⟩

/-- C4: every self-only route (PATCH /users/update/:email,
GET /my-tuitions/:email, GET /applications/received/:email,
GET /applications/tutor/:email, GET /payments/my-history/:email,
GET /payments/tutor-history/:email) called with a path email different
from the authenticated caller email answers 403 before touching any
collection: the response carries no data and the database is unchanged. -/
theorem self_routes_forbidden_on_mismatch (db : DB) (caller : String)
    (r : SelfRoute) (h : caller ≠ pathEmail r) :
    handleSelfRoute db caller r = (HResp.forbidden (selfForbiddenMsg r), db) := by
  simp [handleSelfRoute, h]

/-- Witness for C4: eve requesting the tuitions of alice is refused. -/
theorem self_routes_forbidden_witness :
    "eve" ≠ pathEmail (SelfRoute.getMyTuitions "alice") ∧
    handleSelfRoute dbEx "eve" (SelfRoute.getMyTuitions "alice") =
      (HResp.forbidden "forbidden", dbEx) :=
  ⟨by decide,
   self_routes_forbidden_on_mismatch dbEx "eve" (SelfRoute.getMyTuitions "alice")
     (by decide)⟩

/-- C10: GET /users/:email with no stored user record for that email
answers 200 with the default document holding only role student, and the
database is unchanged. -/
theorem getUserByEmail_default_student (db : DB) (email : String)
    (h : lookupUser db email = none) :
    getUserByEmail db email = (HResp.ok (UserBody.roleOnly "student"), db) := by
  simp [getUserByEmail, h]

/-- Witness for C10: an unknown email on the example database. -/
theorem getUserByEmail_default_witness :
    lookupUser dbEx "nobody" = none ∧
    getUserByEmail dbEx "nobody" = (HResp.ok (UserBody.roleOnly "student"), dbEx) :=
  ⟨rfl, getUserByEmail_default_student dbEx "nobody" rfl⟩

/-- C7: POST /create-payment-intent answers 400 exactly when the price is
absent, zero or negative, and for every strictly positive price it calls
the payment processor with the amount price * 100. -/
theorem createPaymentIntent_price_validation (price : Option Int) :
    (createPaymentIntent price = HResp.badRequest "Valid price is required" ↔
      price = none ∨ ∃ v, price = some v ∧ v ≤ 0) ∧
    (∀ v : Int, price = some v → 0 < v →
      createPaymentIntent price = HResp.ok (IntentBody.created (v * 100))) := by
  cases price with
  | none => simp [createPaymentIntent]
  | some v =>
    constructor
    · by_cases h : v ≤ 0 <;> simp [createPaymentIntent, h]
    · intro w hw hpos
      injection hw with hw
      subst hw
      simp [createPaymentIntent]
      omega

/-- Witness for C7: price 5 passes validation and the processor is called
with amount 500. -/
theorem createPaymentIntent_witness :
    (0 : Int) < 5 ∧ createPaymentIntent (some 5) = HResp.ok (IntentBody.created (5 * 100)) :=
  ⟨by decide, (createPaymentIntent_price_validation (some 5)).2 5 rfl (by decide)⟩

/-- C9: the revenue of GET /admin-stats equals the sum of the price fields
of the stored payments (a document without a numeric price contributes 0,
as in the Mongo group stage), and is 0 when the payments collection is
empty. -/
theorem adminStats_revenue_eq_sum (db : DB) :
    (adminStats db).revenue = sumPrices db.payments ∧
    (db.payments = [] → (adminStats db).revenue = 0) := by
  refine ⟨?_, ?_⟩
  · cases hp : db.payments with
    | nil => simp [adminStats, revenueAgg, hp, sumPrices]
    | cons x xs => simp [adminStats, revenueAgg, hp, foldl_add_price, sumPrices]
  · intro h
    simp [adminStats, revenueAgg, h]

/-- Witness for C9: the empty payments collection yields revenue 0. -/
theorem adminStats_revenue_witness : (adminStats dbEmpty).revenue = 0 :=
  (adminStats_revenue_eq_sum dbEmpty).2 rfl

/-- C5 counterexample: mallory is authenticated but is not the owner of
tuition 1 (owned by alice), yet PATCH /applications/reject/2 succeeds and
sets the status of the application of bob to rejected — the claim demands
a 403 with the application unchanged. -/
theorem reject_no_owner_check_counterexample :
    dbEx.tuitions.map Tuition.studentEmail = ["alice"] ∧
    (rejectApplication dbEx "mallory" 2).1 = HResp.ok ⟨1⟩ ∧
    ((rejectApplication dbEx "mallory" 2).2).applications.map Application.status =
      ["rejected"] :=
  ⟨rfl, rfl, rfl⟩

/-- C5 amended: PATCH /applications/reject/:id sets the status of the
referenced application to rejected for every authenticated caller; the
handler performs no ownership check and never answers forbidden.  The
other collections are untouched. -/
theorem reject_application_any_caller (db : DB) (caller : String) (id : Nat)
    (app : Application)
    (h : db.applications.find? (fun a => a.id == id) = some app) :
    (rejectApplication db caller id).1 = HResp.ok ⟨1⟩ ∧
    ((rejectApplication db caller id).2).applications.find? (fun a => a.id == id) =
      some { app with status := "rejected" } ∧
    (rejectApplication db caller id).2.tuitions = db.tuitions ∧
    (rejectApplication db caller id).2.users = db.users ∧
    (rejectApplication db caller id).2.payments = db.payments := by
  have hpa := List.find?_some h
  refine ⟨?_, ?_, rfl, rfl, rfl⟩
  · simp [rejectApplication, h]
  · simp only [rejectApplication]
    exact find?_updateFirst_eq h hpa

/-- Witness for the amended C5: any caller, here mallory, rejects the
application of bob. -/
theorem reject_application_any_caller_witness :
    (rejectApplication dbEx "mallory" 2).1 = HResp.ok ⟨1⟩ ∧
    ((rejectApplication dbEx "mallory" 2).2).applications.find? (fun a => a.id == 2) =
      some { applicationB with status := "rejected" } ∧
    (rejectApplication dbEx "mallory" 2).2.tuitions = dbEx.tuitions ∧
    (rejectApplication dbEx "mallory" 2).2.users = dbEx.users ∧
    (rejectApplication dbEx "mallory" 2).2.payments = dbEx.payments :=
  reject_application_any_caller dbEx "mallory" 2 applicationB rfl

/-- C6 counterexample: a POST /payments request whose applicationId (9)
matches no stored application but which lacks a transactionId is answered
with the 400 missing-information error, not with 404 NotFound, so the
claim as stated fails on this input (the collections are indeed left
unchanged). -/
theorem payments_notFound_counterexample :
    dbEx.applications.find? (fun a => a.id == 9) = none ∧
    postPayments dbEx 0 payReqNoTx =
      (HResp.badRequest "Missing required payment information", dbEx) ∧
    (postPayments dbEx 0 payReqNoTx).1 ≠ HResp.notFound "Application not found" := by
  refine ⟨rfl, rfl, ?_⟩
  decide

/-- C6 amended: every POST /payments request that supplies both an
applicationId and a transactionId, where the applicationId matches no
stored application, fails with 404 NotFound and leaves every collection
unchanged. -/
theorem payments_notFound_on_missing_application (db : DB) (now : Nat)
    (p : PaymentReq) (appId : Nat) (txId : String)
    (hA : p.applicationId = some appId) (hT : p.transactionId = some txId)
    (hApp : db.applications.find? (fun a => a.id == appId) = none) :
    postPayments db now p = (HResp.notFound "Application not found", db) := by
  simp [postPayments, hA, hT, hApp]

/-- Witness for the amended C6. -/
theorem payments_notFound_witness :
    postPayments dbEx 0 ⟨some 9, some "tx", none, none, none⟩ =
      (HResp.notFound "Application not found", dbEx) :=
  payments_notFound_on_missing_application dbEx 0 ⟨some 9, some "tx", none, none, none⟩
    9 "tx" rfl rfl rfl

/-- C8 counterexample: on the live handler of src/index.js the search term
is ignored: with search math, the approved tuition of alice is returned
although neither its subject Physics nor its location Dhaka contains math,
so the result is not restricted to matching postings. -/
theorem tuitions_search_counterexample :
    tuitionA.status = "approved" ∧
    strContainsCI tuitionA.subject "math" = false ∧
    strContainsCI tuitionA.location "math" = false ∧
    getTuitions dbEx "math" = [tuitionA] :=
  ⟨rfl, rfl, rfl, rfl⟩

/-- C8 amended: GET /tuitions answers exactly the postings whose status is
approved; the search query parameter is ignored by the handler, so the
result is identical for every search term. -/
theorem getTuitions_approved_only (db : DB) (search : String) (t : Tuition) :
    (t ∈ getTuitions db search ↔ t ∈ db.tuitions ∧ t.status = "approved") ∧
    getTuitions db search = getTuitions db "" := by
  refine ⟨?_, rfl⟩
  simp [getTuitions, mem_sortDescBy, List.mem_filter]

/-- The earlier revision src/unnamed/part_000 does implement the search:
its count is exactly the number of matching postings and every posting of
the answered page is approved and matches the search term against subject
or location. -/
theorem getTuitionsSearch_part000_filters (db : DB) (page limit : Nat)
    (search : String) :
    (getTuitionsSearch db page limit search).2 =
      (db.tuitions.filter (tuitionsQueryMatch search)).length ∧
    ∀ t ∈ (getTuitionsSearch db page limit search).1,
      t.status = "approved" ∧
      (strContainsCI t.subject search || strContainsCI t.location search) = true := by
  refine ⟨rfl, ?_⟩
  intro t ht
  have h1 : t ∈ db.tuitions.filter (tuitionsQueryMatch search) :=
    List.mem_of_mem_drop (List.mem_of_mem_take ht)
  have h2 := List.of_mem_filter h1
  simp [tuitionsQueryMatch] at h2
  exact ⟨h2.1, by simp [h2.2]⟩

/-- C1 counterexample: the request references the stored application of
bob (id 2, on tuition 1) and carries a transaction identifier, the
operation completes with the success message, but — because the body has
no tuitionId field — the parent tuition keeps status approved instead of
being set to filled. -/
theorem payments_tuition_not_filled_counterexample :
    dbEx.applications.find? (fun a => a.id == 2) = some applicationB ∧
    applicationB.tuitionId = 1 ∧
    (postPayments dbEx 20 payReqNoTuition).1 =
      HResp.ok (PayBody.success "Payment successful and tutor hired!") ∧
    (postPayments dbEx 20 payReqNoTuition).2.tuitions = [tuitionA] ∧
    tuitionA.status = "approved" :=
  ⟨rfl, rfl, rfl, rfl, rfl⟩

/-- C1 amended: for every POST /payments request that supplies an
applicationId referencing a stored application, a transactionId, and a
tuitionId, the handler copies tutorEmail, tutorName and the timestamp onto
the inserted payment record, sets the referenced application to approved,
and — when the supplied tuitionId references a stored tuition — sets that
tuition to filled with the hired tutor email and hire timestamp; the users
collection is untouched. -/
theorem payments_success_updates (db : DB) (now : Nat) (p : PaymentReq)
    (appId : Nat) (txId : String) (tid : Nat) (app : Application) (tu : Tuition)
    (hA : p.applicationId = some appId) (hT : p.transactionId = some txId)
    (hTid : p.tuitionId = some tid)
    (hApp : db.applications.find? (fun a => a.id == appId) = some app)
    (hTu : db.tuitions.find? (fun t => t.id == tid) = some tu) :
    (postPayments db now p).1 =
      HResp.ok (PayBody.success "Payment successful and tutor hired!") ∧
    (postPayments db now p).2.payments =
      db.payments ++ [buildPaymentDoc appId txId p app now] ∧
    (buildPaymentDoc appId txId p app now).tutorEmail = app.tutorEmail ∧
    (buildPaymentDoc appId txId p app now).tutorName = app.tutorName ∧
    (buildPaymentDoc appId txId p app now).date = now ∧
    (postPayments db now p).2.applications.find? (fun a => a.id == appId) =
      some (approveApplicationDoc txId now app) ∧
    (approveApplicationDoc txId now app).status = "approved" ∧
    (postPayments db now p).2.tuitions.find? (fun t => t.id == tid) =
      some (fillTuitionDoc app.tutorEmail now tu) ∧
    (fillTuitionDoc app.tutorEmail now tu).status = "filled" ∧
    (fillTuitionDoc app.tutorEmail now tu).hiredTutorEmail = some app.tutorEmail ∧
    (fillTuitionDoc app.tutorEmail now tu).hiredAt = some now := by
  have hpa := List.find?_some hApp
  have hpt := List.find?_some hTu
  refine ⟨?_, ?_, rfl, rfl, rfl, ?_, rfl, ?_, rfl, rfl, rfl⟩
  · simp [postPayments, hA, hT, hApp, hTid]
  · simp [postPayments, hA, hT, hApp, hTid]
  · simp only [postPayments, hA, hT, hApp, hTid]
    exact find?_updateFirst_eq hApp hpa
  · simp only [postPayments, hA, hT, hApp, hTid]
    exact find?_updateFirst_eq hTu hpt

/-- Witness for the amended C1: the payment of alice for the application
of bob on tuition 1. -/
theorem payments_success_updates_witness :
    (postPayments dbEx 20 payReqFull).1 =
      HResp.ok (PayBody.success "Payment successful and tutor hired!") ∧
    (postPayments dbEx 20 payReqFull).2.payments =
      dbEx.payments ++ [buildPaymentDoc 2 "tx" payReqFull applicationB 20] ∧
    (buildPaymentDoc 2 "tx" payReqFull applicationB 20).tutorEmail =
      applicationB.tutorEmail ∧
    (buildPaymentDoc 2 "tx" payReqFull applicationB 20).tutorName =
      applicationB.tutorName ∧
    (buildPaymentDoc 2 "tx" payReqFull applicationB 20).date = 20 ∧
    (postPayments dbEx 20 payReqFull).2.applications.find? (fun a => a.id == 2) =
      some (approveApplicationDoc "tx" 20 applicationB) ∧
    (approveApplicationDoc "tx" 20 applicationB).status = "approved" ∧
    (postPayments dbEx 20 payReqFull).2.tuitions.find? (fun t => t.id == 1) =
      some (fillTuitionDoc applicationB.tutorEmail 20 tuitionA) ∧
    (fillTuitionDoc applicationB.tutorEmail 20 tuitionA).status = "filled" ∧
    (fillTuitionDoc applicationB.tutorEmail 20 tuitionA).hiredTutorEmail =
      some applicationB.tutorEmail ∧
    (fillTuitionDoc applicationB.tutorEmail 20 tuitionA).hiredAt = some 20 :=
  payments_success_updates dbEx 20 payReqFull 2 "tx" 1 applicationB tuitionA
    rfl rfl rfl rfl rfl

/-- C2: starting from a state with no application for the
(tuitionId, tutorEmail) key, two POST /applications requests with that
identical key leave exactly one stored record for the key; the second call
changes nothing and answers 200 with a null insertedId and the
Already applied message, not an error. -/
theorem duplicate_application_soft_success (db : DB) (r1 r2 : ApplicationReq)
    (hk1 : r2.tuitionId = r1.tuitionId) (hk2 : r2.tutorEmail = r1.tutorEmail)
    (h0 : countApplicationsFor db r1.tuitionId r1.tutorEmail = 0) :
    countApplicationsFor (postApplications (postApplications db r1).2 r2).2
        r1.tuitionId r1.tutorEmail = 1 ∧
    (postApplications (postApplications db r1).2 r2).2 = (postApplications db r1).2 ∧
    (postApplications (postApplications db r1).2 r2).1 =
      HResp.ok ⟨none, some "Already applied"⟩ := by
  have hnil : db.applications.filter
      (fun a => a.tuitionId == r1.tuitionId && a.tutorEmail == r1.tutorEmail) = [] := by
    unfold countApplicationsFor at h0
    exact List.length_eq_zero.mp h0
  have hall : ∀ a ∈ db.applications,
      ¬((a.tuitionId == r1.tuitionId && a.tutorEmail == r1.tutorEmail) = true) := by
    intro a ha hcontra
    have hmem : a ∈ db.applications.filter
        (fun a => a.tuitionId == r1.tuitionId && a.tutorEmail == r1.tutorEmail) :=
      List.mem_filter.mpr ⟨ha, hcontra⟩
    rw [hnil] at hmem
    cases hmem
  have hfind : db.applications.find?
      (fun a => a.tuitionId == r1.tuitionId && a.tutorEmail == r1.tutorEmail) = none :=
    List.find?_eq_none.mpr hall
  have hpred : (fun a : Application => a.tuitionId == r2.tuitionId && a.tutorEmail == r2.tutorEmail)
      = (fun a : Application => a.tuitionId == r1.tuitionId && a.tutorEmail == r1.tutorEmail) := by
    funext a
    rw [hk1, hk2]
  have ha1 : ((newApplicationDoc db.nextId r1).tuitionId == r1.tuitionId &&
      (newApplicationDoc db.nextId r1).tutorEmail == r1.tutorEmail) = true := by
    simp [newApplicationDoc]
  have e1 : postApplications db r1 = (HResp.ok ⟨some db.nextId, none⟩,
      { db with
        applications := db.applications ++ [newApplicationDoc db.nextId r1]
        nextId := db.nextId + 1 }) := by
    simp [postApplications, hfind]
  have hfind2 : ((db.applications ++ [newApplicationDoc db.nextId r1]).find?
      (fun a => a.tuitionId == r1.tuitionId && a.tutorEmail == r1.tutorEmail)) =
      some (newApplicationDoc db.nextId r1) := by
    rw [find?_append_none hfind]
    exact List.find?_cons_of_pos _ ha1
  rw [e1]
  simp only [postApplications, hpred]
  rw [hfind2]
  refine ⟨?_, rfl, rfl⟩
  simp only [countApplicationsFor, List.filter_append, hnil, List.nil_append]
  simp [ha1]

/-- Witness for C2: bob applies twice to tuition 1 on the empty database;
the second call is the soft duplicate success. -/
theorem duplicate_application_witness :
    countApplicationsFor dbEmpty 1 "bob" = 0 ∧
    countApplicationsFor
      (postApplications (postApplications dbEmpty ⟨1, "bob", "Bob", 12⟩).2
        ⟨1, "bob", "Bob", 12⟩).2 1 "bob" = 1 ∧
    (postApplications (postApplications dbEmpty ⟨1, "bob", "Bob", 12⟩).2
        ⟨1, "bob", "Bob", 12⟩).2 =
      (postApplications dbEmpty ⟨1, "bob", "Bob", 12⟩).2 ∧
    (postApplications (postApplications dbEmpty ⟨1, "bob", "Bob", 12⟩).2
        ⟨1, "bob", "Bob", 12⟩).1 = HResp.ok ⟨none, some "Already applied"⟩ :=
  ⟨rfl, duplicate_application_soft_success dbEmpty ⟨1, "bob", "Bob", 12⟩
    ⟨1, "bob", "Bob", 12⟩ rfl rfl rfl⟩

end ETuitionBd
